import Mathlib

/-!
Shallow embedding of `scripts/scripts/vaccinations/src/vax/batch/chile.py`.

A pandas `DataFrame` is embedded as a list of rows; every stage of the
pipeline works on a row type carrying exactly the columns the frame has at
that point of the program.  `NaN` cells are embedded as `none`, numeric cells
as `Int`.  Column names are fixed by the embedding (the `cat` field stands
for the melt id column, named "Type" in the base pipeline and "Age" in the
age pipeline); string-typed column-name arguments of the Python methods are
kept in the signatures for fidelity but the column they select is determined
by the row type.  A Python method that can raise (a failed `assert`, a
`DataFrame.pivot` on duplicate index entries, an attribute access on a
missing column) is embedded as a function into `Option`, with `none` for the
raising run.  Lexicographic string comparison (Python's `str` order on code
points, used by `sort_values` and sorted group keys) is embedded by
`charsLe` / `strLe` below because it must evaluate inside the kernel.
-/

/-- Lexicographic code-point order on character lists, the order Python uses
for `str` comparison; `charsLe as bs` is `as ≤ bs`. -/
def charsLe : List Char → List Char → Bool
  | [], _ => true
  | _ :: _, [] => false
  | a :: as, b :: bs =>
    decide (a.toNat < b.toNat) || (decide (a.toNat = b.toNat) && charsLe as bs)

/-- String order induced by `charsLe`. -/
def strLe (a b : String) : Prop := charsLe a.data b.data = true

instance : DecidableRel strLe := fun a b => inferInstanceAs (Decidable (_ = true))

theorem charsLe_total : ∀ as bs : List Char, charsLe as bs = true ∨ charsLe bs as = true := by
  intro as
  induction as with
  | nil => intro bs; left; rfl
  | cons a as ih =>
    intro bs
    cases bs with
    | nil => right; rfl
    | cons b bs =>
      rcases Nat.lt_trichotomy a.toNat b.toNat with h | h | h
      · left; simp [charsLe, h]
      · rcases ih bs with h2 | h2
        · left; simp [charsLe, h, h2]
        · right; simp [charsLe, h.symm, h2]
      · right; simp [charsLe, h]

theorem charsLe_trans : ∀ as bs cs : List Char,
    charsLe as bs = true → charsLe bs cs = true → charsLe as cs = true := by
  intro as
  induction as with
  | nil => intro bs cs _ _; rfl
  | cons a as ih =>
    intro bs cs h1 h2
    cases bs with
    | nil => simp [charsLe] at h1
    | cons b bs =>
      cases cs with
      | nil => simp [charsLe] at h2
      | cons c cs =>
        simp only [charsLe, Bool.or_eq_true, Bool.and_eq_true, decide_eq_true_eq] at h1 h2 ⊢
        rcases h1 with h1 | ⟨h1e, h1r⟩
        · rcases h2 with h2 | ⟨h2e, h2r⟩
          · exact Or.inl (Nat.lt_trans h1 h2)
          · exact Or.inl (h2e ▸ h1)
        · rcases h2 with h2 | ⟨h2e, h2r⟩
          · exact Or.inl (h1e ▸ h2)
          · exact Or.inr ⟨h1e.trans h2e, ih bs cs h1r h2r⟩

instance : IsTotal String strLe := ⟨fun a b => charsLe_total a.data b.data⟩

instance : IsTrans String strLe := ⟨fun a b c => charsLe_trans a.data b.data c.data⟩

/-- Lexicographic order on the pivot index `(cat, date)` (a pandas
`MultiIndex` is sorted lexicographically by `pivot`). -/
def keyLe (a b : String × String) : Prop :=
  (a.1 ≠ b.1 ∧ strLe a.1 b.1) ∨ (a.1 = b.1 ∧ strLe a.2 b.2)

instance : DecidableRel keyLe := fun a b => inferInstanceAs (Decidable (_ ∨ _))

/-- A row of the wide source CSV: the id columns `Type`/`Age` (field `cat`)
and `Dose`, then one numeric cell per date column of the frame. -/
structure WideRow where
  cat : String
  dose : String
  vals : List (Option Int)
deriving DecidableEq, Repr

/-- The wide source CSV: the list of its date column names, and its rows. -/
structure WideDf where
  cols : List String
  rows : List WideRow
deriving DecidableEq, Repr

/-- A row of the long (melted) frame: id columns plus `date` and `value`. -/
structure LongRow where
  cat : String
  dose : String
  date : String
  value : Option Int
deriving DecidableEq, Repr

/-- A row of the pivoted frame: the index columns `cat` and `date`, then one
cell per dose column of the frame (`vals` is parallel to `PivotDf.doses`). -/
structure PivotRow where
  cat : String
  date : String
  vals : List (Option Int)
deriving DecidableEq, Repr

/-- The pivoted frame: its dose column names (sorted, deduplicated) and rows. -/
structure PivotDf where
  doses : List String
  rows : List PivotRow
deriving DecidableEq, Repr

/-- A row after `pipe_vaccinations`: `First`/`Second` renamed to
`people_vaccinated`/`people_fully_vaccinated`, the derived
`total_vaccinations` (an `Int`, never missing), and any remaining dose
columns in `others`. -/
structure VaxRow where
  cat : String
  date : String
  people_vaccinated : Option Int
  people_fully_vaccinated : Option Int
  total_vaccinations : Int
  others : List (String × Option Int)
deriving DecidableEq, Repr

/-- A row after `pipe_aggregate_metrics`: one row per date. -/
structure AggRow where
  date : String
  people_vaccinated : Int
  people_fully_vaccinated : Int
  total_vaccinations : Int
  vaccine : String
deriving DecidableEq, Repr

/-- An aggregated row after `pipe_source` stamped the reference URL. -/
structure SrcAggRow where
  date : String
  people_vaccinated : Int
  people_fully_vaccinated : Int
  total_vaccinations : Int
  vaccine : String
  source_url : String
deriving DecidableEq, Repr

/-- A row of the main vaccinations output (after `pipe_location`). -/
structure FinalRow where
  date : String
  people_vaccinated : Int
  people_fully_vaccinated : Int
  total_vaccinations : Int
  vaccine : String
  source_url : String
  location : String
deriving DecidableEq, Repr

/-- A `VaxRow` with the `location` column stamped (age pipeline). -/
structure LocVaxRow where
  cat : String
  date : String
  people_vaccinated : Option Int
  people_fully_vaccinated : Option Int
  total_vaccinations : Int
  others : List (String × Option Int)
  location : String
deriving DecidableEq, Repr

/-- A row of the age-group output.  The extracted bounds are strings
(`df.Age.str.extract` yields object columns), `none` embedding `NaN`. -/
structure AgeRow where
  date : String
  age_group_min : Option String
  age_group_max : Option String
  total_vaccinations : Int
  location : String
deriving DecidableEq, Repr

/-- A row of the manufacturer output.  The schema has exactly these four
columns: `pipeline_manufacturer` selects `Type`/`date`/`total_vaccinations`
and assigns `location`; in particular it has no `source_url` column. -/
structure ManRow where
  vaccine : String
  date : String
  total_vaccinations : Int
  location : String
deriving DecidableEq, Repr

instance : DecidableRel (fun a b : VaxRow => strLe a.cat b.cat) :=
  fun a b => inferInstanceAs (Decidable (strLe a.cat b.cat))

instance : DecidableRel (fun a b : ManRow => strLe a.date b.date) :=
  fun a b => inferInstanceAs (Decidable (strLe a.date b.date))

instance : DecidableRel (fun a b : AgeRow => strLe a.date b.date) :=
  fun a b => inferInstanceAs (Decidable (strLe a.date b.date))

instance : IsTotal ManRow (fun a b => strLe a.date b.date) :=
  ⟨fun a b => charsLe_total a.date.data b.date.data⟩

instance : IsTrans ManRow (fun a b => strLe a.date b.date) :=
  ⟨fun a b c => charsLe_trans a.date.data b.date.data c.date.data⟩

/-- The configuration the `Chile` object is constructed with. -/
structure Chile where
  source_url : String
  source_url_ref : String
  source_url_age : String
  location : String
deriving DecidableEq, Repr

/-- Embedding of `df.melt(id_vars, var_name="date", value_name="value")`:
for each date column (in frame order), one long row per wide row. -/
def Chile.pipe_melt (c : Chile) (df : WideDf) (id_vars : List String) : List LongRow :=
  df.cols.enum.flatMap fun ic =>
    df.rows.map fun r => ⟨r.cat, r.dose, ic.2, (r.vals.get? ic.1).getD none⟩

/-- Embedding of `df[(df[colname] != "Total") & (df.value > 0)]`.  A `NaN`
value compares as not greater than zero, so such rows are dropped. -/
def Chile.pipe_filter_rows (c : Chile) (df : List LongRow) (colname : String) : List LongRow :=
  df.filter fun r =>
    (r.cat != "Total") && (match r.value with | some v => decide (0 < v) | none => false)

/-- Embedding of
`df.pivot(index=index, columns="Dose", values="value").reset_index()`:
one row per distinct `(cat, date)` index key (sorted lexicographically, as
pandas sorts the resulting index), one column per distinct dose (sorted);
an absent `(key, dose)` combination yields a `NaN` cell; duplicate
`(cat, date, dose)` input entries raise `ValueError`, embedded as `none`. -/
def Chile.pipe_pivot (c : Chile) (df : List LongRow) (index : List String) : Option PivotDf :=
  if (df.map fun r => (r.cat, r.date, r.dose)).Nodup then
    let doses := List.insertionSort strLe (df.map fun r => r.dose).dedup
    let keys := List.insertionSort keyLe (df.map fun r => (r.cat, r.date)).dedup
    some
      { doses := doses
        rows := keys.map fun k =>
          { cat := k.1
            date := k.2
            vals := doses.map fun d =>
              match df.find? fun r => r.cat == k.1 && r.date == k.2 && r.dose == d with
              | some r => r.value
              | none => none } }
  else none

/-- Reading of the cell of dose column `d` in a pivoted row. -/
def cellVal (doses : List String) (r : PivotRow) (d : String) : Option Int :=
  match doses.findIdx? (· == d) with
  | some i => (r.vals.get? i).getD none
  | none => none

/-- Embedding of `pipe_vaccinations`: derives
`total_vaccinations = First.fillna(0) + Second.fillna(0)` and renames
`First`/`Second`.  The attribute accesses `df.First` / `df.Second` raise on
a frame missing either column, embedded as `none`. -/
def Chile.pipe_vaccinations (c : Chile) (p : PivotDf) : Option (List VaxRow) :=
  if "First" ∈ p.doses ∧ "Second" ∈ p.doses then
    some (p.rows.map fun r =>
      let f := cellVal p.doses r "First"
      let s := cellVal p.doses r "Second"
      { cat := r.cat
        date := r.date
        people_vaccinated := f
        people_fully_vaccinated := s
        total_vaccinations := f.getD 0 + s.getD 0
        others := (p.doses.zip r.vals).filter fun x => x.1 != "First" && x.1 != "Second" })
  else none

/-- The fixed lookup table `vaccine_mapping` of `pipe_rename_vaccines`. -/
def vaccine_mapping : List (String × String) :=
  [("Pfizer", "Pfizer/BioNTech"), ("Sinovac", "Sinovac"), ("Astra-Zeneca", "Oxford/AstraZeneca")]

/-- One cell under `df.replace(vaccine_mapping)`: a string cell equal to a
key of the table is replaced by its image, any other cell is unchanged. -/
def applyVaccineMapping (s : String) : String :=
  match vaccine_mapping.find? fun kv => kv.1 == s with
  | some kv => kv.2
  | none => s

/-- One row under `df.replace(vaccine_mapping)`: `replace` visits every
column; the only string-valued columns of the frame are `cat` and `date`. -/
def renameVaxRow (r : VaxRow) : VaxRow :=
  { r with cat := applyVaccineMapping r.cat, date := applyVaccineMapping r.date }

/-- Embedding of `pipe_rename_vaccines`:
`assert set(df["Type"].unique()) == set(vaccine_mapping.keys())` (set
equality, i.e. mutual inclusion of the observed category set and the key
set) and then `df.replace(vaccine_mapping)`.  The failed assertion is
embedded as `none`. -/
def Chile.pipe_rename_vaccines (c : Chile) (df : List VaxRow) : Option (List VaxRow) :=
  if (∀ t ∈ df.map (fun r : VaxRow => r.cat), t ∈ vaccine_mapping.map Prod.fst) ∧
      (∀ k ∈ vaccine_mapping.map Prod.fst, k ∈ df.map (fun r : VaxRow => r.cat)) then
    some (df.map renameVaxRow)
  else none

/-- Embedding of `pipe_aggregate_metrics`: sort by `Type`, group by `date`
(group keys sorted ascending, as pandas `groupby` sorts them), sum the three
numeric columns over each group (pandas `sum` skips `NaN`, so a missing cell
counts as zero) and join the group's `Type` labels with `", "`. -/
def Chile.pipe_aggregate_metrics (c : Chile) (df : List VaxRow) : List AggRow :=
  let sorted := List.insertionSort (fun a b : VaxRow => strLe a.cat b.cat) df
  let dates := List.insertionSort strLe (df.map fun r => r.date).dedup
  dates.map fun d =>
    let g := sorted.filter fun r => r.date == d
    { date := d
      people_vaccinated := (g.map fun r => r.people_vaccinated.getD 0).sum
      people_fully_vaccinated := (g.map fun r => r.people_fully_vaccinated.getD 0).sum
      total_vaccinations := (g.map fun r => r.total_vaccinations).sum
      vaccine := String.intercalate ", " (g.map fun r => r.cat) }

/-- Embedding of `pipe_source`: `df.assign(source_url=self.source_url_ref)`. -/
def Chile.pipe_source (c : Chile) (df : List AggRow) : List SrcAggRow :=
  df.map fun r =>
    { date := r.date
      people_vaccinated := r.people_vaccinated
      people_fully_vaccinated := r.people_fully_vaccinated
      total_vaccinations := r.total_vaccinations
      vaccine := r.vaccine
      source_url := c.source_url_ref }

/-- Embedding of `pipe_location` (`df.assign(location=self.location)`) at
the aggregated frame of the main vaccinations pipeline. -/
def Chile.pipe_location (c : Chile) (df : List SrcAggRow) : List FinalRow :=
  df.map fun r =>
    { date := r.date
      people_vaccinated := r.people_vaccinated
      people_fully_vaccinated := r.people_fully_vaccinated
      total_vaccinations := r.total_vaccinations
      vaccine := r.vaccine
      source_url := r.source_url
      location := c.location }

/-- Embedding of `pipe_location` at the pivoted frame of the age pipeline
(the Python method is generic over the frame; the embedding is typed, so it
is stated once per row type). -/
def Chile.pipe_location_age (c : Chile) (df : List VaxRow) : List LocVaxRow :=
  df.map fun r =>
    { cat := r.cat
      date := r.date
      people_vaccinated := r.people_vaccinated
      people_fully_vaccinated := r.people_fully_vaccinated
      total_vaccinations := r.total_vaccinations
      others := r.others
      location := c.location }

/-- Embedding of `pipeline_base`: melt, filter, pivot, derive totals,
rename vaccines. -/
def Chile.pipeline_base (c : Chile) (df : WideDf) : Option (List VaxRow) :=
  ((c.pipe_pivot (c.pipe_filter_rows (c.pipe_melt df ["Type", "Dose"]) "Type")
      ["Type", "date"]).bind
    fun p => c.pipe_vaccinations p).bind
    fun v => c.pipe_rename_vaccines v

/-- Embedding of `pipeline_vaccinations`: aggregate, stamp source, stamp
location. -/
def Chile.pipeline_vaccinations (c : Chile) (df : List VaxRow) : List FinalRow :=
  c.pipe_location (c.pipe_source (c.pipe_aggregate_metrics df))

/-- Embedding of `pipeline_manufacturer`: select
`["Type", "date", "total_vaccinations"]`, rename `Type` to `vaccine`,
`assign(location="Chile")` (the literal string, not `self.location`), then
`sort_values("date")`. -/
def Chile.pipeline_manufacturer (c : Chile) (df : List VaxRow) : List ManRow :=
  List.insertionSort (fun a b : ManRow => strLe a.date b.date)
    (df.map fun r =>
      { vaccine := r.cat
        date := r.date
        total_vaccinations := r.total_vaccinations
        location := "Chile" })

/-- ASCII reading of the regex character class `\d` (the age labels of the
source data are ASCII; Python's Unicode digits beyond ASCII are not
modelled). -/
def isDigitChar (ch : Char) : Bool := decide (48 ≤ ch.toNat ∧ ch.toNat ≤ 57)

/-- The regex character class `[ a-zA-Z]`. -/
def isAgeLetterSpace (ch : Char) : Bool :=
  decide (ch.toNat = 32 ∨ (97 ≤ ch.toNat ∧ ch.toNat ≤ 122) ∨ (65 ≤ ch.toNat ∧ ch.toNat ≤ 90))

/-- Matching of the part of the age regex
`(\d{1,2})(?:[ a-zA-Z]+|-(\d{1,2})[ a-zA-Z]*)` that follows the first
group: Python tries the alternative `[ a-zA-Z]+` first (it succeeds exactly
when the next character is in the class; nothing follows it in the
pattern), then `-(\d{1,2})[ a-zA-Z]*`, whose `\d{1,2}` is greedy and whose
trailing star always succeeds.  `g1` is the text of the first group. -/
def ageSuffixMatch (g1 : List Char) (rest : List Char) :
    Option (List Char × Option (List Char)) :=
  match rest with
  | [] => none
  | ch :: cs =>
    if isAgeLetterSpace ch then some (g1, none)
    else if ch == '-' then
      match cs with
      | [] => none
      | d1 :: ds =>
        if isDigitChar d1 then
          match ds with
          | d2 :: _ => if isDigitChar d2 then some (g1, some [d1, d2]) else some (g1, some [d1])
          | [] => some (g1, some [d1])
        else none
    else none

/-- Matching of the whole age regex at one position: the greedy `(\d{1,2})`
first tries two digits and, if the remainder fails, backtracks to one. -/
def ageMatchAt : List Char → Option (List Char × Option (List Char))
  | [] => none
  | c1 :: rest =>
    if isDigitChar c1 then
      match rest with
      | [] => none
      | c2 :: rest2 =>
        if isDigitChar c2 then
          match ageSuffixMatch [c1, c2] rest2 with
          | some r => some r
          | none => ageSuffixMatch [c1] (c2 :: rest2)
        else ageSuffixMatch [c1] rest
    else none

/-- Unanchored search (the `re.search` behind `Series.str.extract`): the
leftmost position with a match wins. -/
def ageSearch : List Char → Option (List Char × Option (List Char))
  | [] => none
  | c :: cs =>
    match ageMatchAt (c :: cs) with
    | some r => some r
    | none => ageSearch cs

/-- Embedding of
`df.Age.str.extract(r"(\d{1,2})(?:[ a-zA-Z]+|-(\d{1,2})[ a-zA-Z]*)")` on a
single label: the pair `(age_group_min, age_group_max)`, `none` embedding
the `NaN` of an unmatched group or of a label with no match at all. -/
def extractAge (s : String) : Option String × Option String :=
  match ageSearch s.data with
  | some (g1, g2) => (some (String.mk g1), g2.map String.mk)
  | none => (none, none)

/-- Embedding of `pipe_postprocess_age`: extract the two age bounds from
the `Age` label and select
`["date", "age_group_min", "age_group_max", "total_vaccinations", "location"]`. -/
def Chile.pipe_postprocess_age (c : Chile) (df : List LocVaxRow) : List AgeRow :=
  df.map fun r =>
    { date := r.date
      age_group_min := (extractAge r.cat).1
      age_group_max := (extractAge r.cat).2
      total_vaccinations := r.total_vaccinations
      location := r.location }

/-- Embedding of `pipeline_age`: melt, filter, pivot, derive totals, stamp
location, postprocess ages, `sort_values(by="date")`. -/
def Chile.pipeline_age (c : Chile) (df : WideDf) : Option (List AgeRow) :=
  ((c.pipe_pivot (c.pipe_filter_rows (c.pipe_melt df ["Age", "Dose"]) "Age")
      ["Age", "date"]).bind
    fun p => c.pipe_vaccinations p).map
    fun v =>
      List.insertionSort (fun a b : AgeRow => strLe a.date b.date)
        (c.pipe_postprocess_age (c.pipe_location_age v))

/-- The main-output run of `to_csv`: `pipeline_base` then
`pipeline_vaccinations`. -/
def Chile.run_vaccinations (c : Chile) (df : WideDf) : Option (List FinalRow) :=
  (c.pipeline_base df).map fun v => c.pipeline_vaccinations v

/-- The manufacturer-output run of `to_csv`: `pipeline_base` then
`pipeline_manufacturer`. -/
def Chile.run_manufacturer (c : Chile) (df : WideDf) : Option (List ManRow) :=
  (c.pipeline_base df).map fun v => c.pipeline_manufacturer v

/-- The configuration `main` builds (URLs abbreviated; only `location` and
`source_url_ref` matter to the theorems below). -/
def chileCfg : Chile :=
  { source_url := "chile-vaccination-type.csv"
    source_url_ref := "https://www.gob.cl/yomevacuno/"
    source_url_age := "chile-vaccination-ages.csv"
    location := "Chile" }

/-- A configuration with a different location name, to separate the
configured location from the literal `"Chile"` of `pipeline_manufacturer`. -/
def elboniaCfg : Chile :=
  { source_url := "u", source_url_ref := "r", source_url_age := "a", location := "Elbonia" }

/-- A small wide fixture in the shape of the source CSV. -/
def wideFix : WideDf :=
  { cols := ["2021-01-02", "2021-01-01"]
    rows := [ { cat := "Pfizer", dose := "First", vals := [some 10, some 5] }
            , { cat := "Pfizer", dose := "Second", vals := [some 4, none] }
            , { cat := "Sinovac", dose := "First", vals := [some 3, some 2] }
            , { cat := "Sinovac", dose := "Second", vals := [some 1, some 0] }
            , { cat := "Astra-Zeneca", dose := "First", vals := [some 7, some 6] }
            , { cat := "Astra-Zeneca", dose := "Second", vals := [some 2, some 1] }
            , { cat := "Total", dose := "First", vals := [some 20, some 13] } ] }

/-- A wide fixture whose two categories share the single date. -/
def cexWide : WideDf :=
  { cols := ["2021-01-01"]
    rows := [ { cat := "Pfizer", dose := "First", vals := [some 5] }
            , { cat := "Pfizer", dose := "Second", vals := [some 2] }
            , { cat := "Sinovac", dose := "First", vals := [some 3] }
            , { cat := "Sinovac", dose := "Second", vals := [some 1] } ] }

/-- The long frame `cexWide` melts and filters to. -/
def cexLong : List LongRow :=
  chileCfg.pipe_filter_rows (chileCfg.pipe_melt cexWide ["Type", "Dose"]) "Type"

/-- The pivoted frame `cexLong` pivots to. -/
def cexPiv : PivotDf :=
  { doses := ["First", "Second"]
    rows := [ { cat := "Pfizer", date := "2021-01-01", vals := [some 5, some 2] }
            , { cat := "Sinovac", date := "2021-01-01", vals := [some 3, some 1] } ] }

/-- A pivoted fixture with a missing second dose. -/
def pivFix : PivotDf :=
  { doses := ["First", "Second"]
    rows := [ { cat := "Pfizer", date := "2021-01-01", vals := [some 5, none] } ] }

/-- The `pipe_vaccinations` image of `pivFix`. -/
def vaxOutFix : List VaxRow :=
  [ { cat := "Pfizer", date := "2021-01-01", people_vaccinated := some 5
    , people_fully_vaccinated := none, total_vaccinations := 5, others := [] } ]

/-- A renamed per-vaccine row (post-`pipeline_base` shape). -/
def manVaxRow : VaxRow :=
  { cat := "Pfizer/BioNTech", date := "2021-01-01", people_vaccinated := some 5
  , people_fully_vaccinated := none, total_vaccinations := 5, others := [] }

/-- A per-vaccine row with the unmapped category `"Moderna"`. -/
def unmappedRow : VaxRow :=
  { cat := "Moderna", date := "2021-01-01", people_vaccinated := some 1
  , people_fully_vaccinated := none, total_vaccinations := 1, others := [] }

/-- A per-vaccine row whose category is the mapped key `"Pfizer"`. -/
def pfizerRow : VaxRow :=
  { cat := "Pfizer", date := "2021-01-01", people_vaccinated := some 1
  , people_fully_vaccinated := none, total_vaccinations := 1, others := [] }

/-- An aggregated fixture row. -/
def aggRowFix : AggRow :=
  { date := "2021-01-01", people_vaccinated := 5, people_fully_vaccinated := 2
  , total_vaccinations := 7, vaccine := "Pfizer/BioNTech" }

/-- A location-stamped age-pipeline row whose label uses the `"N+"` form. -/
def agePlusRow : LocVaxRow :=
  { cat := "80+ years", date := "2021-01-01", people_vaccinated := some 3
  , people_fully_vaccinated := none, total_vaccinations := 3, others := []
  , location := "Chile" }

/-- C1: `pipe_rename_vaccines` aborts (embedded as `none`) whenever some
row's observed `Type` category lies outside the fixed lookup table
`{"Pfizer", "Sinovac", "Astra-Zeneca"}`; when it does not abort, the result
is the row-wise `replace` through the table, whose values are
`"Pfizer/BioNTech"`, `"Sinovac"` and `"Oxford/AstraZeneca"`. -/
theorem chile_c1_rename_vaccines (c : Chile) (df : List VaxRow) :
    ((∃ r ∈ df, r.cat ∉ (["Pfizer", "Sinovac", "Astra-Zeneca"] : List String)) →
      c.pipe_rename_vaccines df = none) ∧
    (∀ out, c.pipe_rename_vaccines df = some out →
      out = df.map renameVaxRow ∧
      applyVaccineMapping "Pfizer" = "Pfizer/BioNTech" ∧
      applyVaccineMapping "Sinovac" = "Sinovac" ∧
      applyVaccineMapping "Astra-Zeneca" = "Oxford/AstraZeneca") := by
  constructor
  · rintro ⟨r, hr, hno⟩
    rw [Chile.pipe_rename_vaccines, if_neg]
    rintro ⟨h1, h2⟩
    exact hno (by simpa [vaccine_mapping] using h1 r.cat (List.mem_map_of_mem _ hr))
  · intro out hout
    rw [Chile.pipe_rename_vaccines] at hout
    split_ifs at hout with h
    exact ⟨(Option.some.injEq _ _ ▸ hout).symm, by decide, by decide, by decide⟩

/-- Witness for C1 at a concrete unmapped category. -/
theorem chile_c1_witness : chileCfg.pipe_rename_vaccines [unmappedRow] = none :=
  (chile_c1_rename_vaccines chileCfg [unmappedRow]).1 ⟨unmappedRow, by decide, by decide⟩

/-- C9: the assertion of `pipe_rename_vaccines` is set equality with the key
set of the mapping, not a subset check: an input whose categories are all
mapped keys but miss one of the three expected categories aborts too. -/
theorem chile_c9_equality_not_subset (c : Chile) (df : List VaxRow)
    (hall : ∀ r ∈ df, r.cat ∈ (["Pfizer", "Sinovac", "Astra-Zeneca"] : List String))
    (hmiss : ∃ k ∈ (["Pfizer", "Sinovac", "Astra-Zeneca"] : List String), ∀ r ∈ df, r.cat ≠ k) :
    c.pipe_rename_vaccines df = none := by
  rw [Chile.pipe_rename_vaccines, if_neg]
  rintro ⟨h1, h2⟩
  obtain ⟨k, hk, hnone⟩ := hmiss
  have hkmem : k ∈ df.map (fun r : VaxRow => r.cat) := h2 k (by simpa [vaccine_mapping] using hk)
  obtain ⟨r, hr, hreq⟩ := List.mem_map.mp hkmem
  exact hnone r hr hreq

/-- Witness for C9: an input whose only category is the mapped key
`"Pfizer"` (so every observed category is mapped, yet the run aborts). -/
theorem chile_c9_witness : chileCfg.pipe_rename_vaccines [pfizerRow] = none :=
  chile_c9_equality_not_subset chileCfg [pfizerRow] (by decide)
    ⟨"Sinovac", by decide, by decide⟩

/-- C3: on a pivoted frame, `pipe_vaccinations` sets `total_vaccinations` of
each row to `First.fillna(0) + Second.fillna(0)`; a row whose `Second` cell
is missing but whose `First` cell reads `v` gets total exactly `v`.  The
total column has type `Int` in the embedding: it is never a missing cell. -/
theorem chile_c3_total_vaccinations (c : Chile) (p : PivotDf) (out : List VaxRow)
    (h : c.pipe_vaccinations p = some out) :
    out.length = p.rows.length ∧
    ∀ i (hio : i < out.length) (hip : i < p.rows.length),
      (out.get ⟨i, hio⟩).total_vaccinations =
        (cellVal p.doses (p.rows.get ⟨i, hip⟩) "First").getD 0 +
          (cellVal p.doses (p.rows.get ⟨i, hip⟩) "Second").getD 0 ∧
      (cellVal p.doses (p.rows.get ⟨i, hip⟩) "Second" = none →
        ∀ v, cellVal p.doses (p.rows.get ⟨i, hip⟩) "First" = some v →
          (out.get ⟨i, hio⟩).total_vaccinations = v) := by
  rw [Chile.pipe_vaccinations] at h
  split_ifs at h with hc
  have hout : out = p.rows.map fun r =>
      { cat := r.cat
        date := r.date
        people_vaccinated := cellVal p.doses r "First"
        people_fully_vaccinated := cellVal p.doses r "Second"
        total_vaccinations := (cellVal p.doses r "First").getD 0 +
          (cellVal p.doses r "Second").getD 0
        others := (p.doses.zip r.vals).filter fun x => x.1 != "First" && x.1 != "Second" } :=
    (Option.some.injEq _ _ ▸ h).symm
  subst hout
  refine ⟨List.length_map _ _, ?_⟩
  intro i hio hip
  refine ⟨?_, ?_⟩
  · simp [List.getElem_map]
  · intro hs v hf
    simp only [List.get_eq_getElem] at hs hf
    simp [List.getElem_map, hs, hf]

/-- Witness for C3 on `pivFix`, whose single row misses its second dose. -/
theorem chile_c3_witness :
    chileCfg.pipe_vaccinations pivFix = some vaxOutFix ∧ vaxOutFix.length = pivFix.rows.length :=
  ⟨by decide, (chile_c3_total_vaccinations chileCfg pivFix vaxOutFix (by decide)).1⟩

/-- C4: `pipe_filter_rows` keeps exactly the rows whose category column
differs from the sentinel `"Total"` and whose value reads strictly positive
(a missing value is dropped), and both pipelines run it between melt and
pivot. -/
theorem chile_c4_filter_rows (c : Chile) (df : List LongRow) (colname : String)
    (w : WideDf) (r : LongRow) :
    (r ∈ c.pipe_filter_rows df colname ↔
      r ∈ df ∧ r.cat ≠ "Total" ∧ ∃ v, r.value = some v ∧ 0 < v) ∧
    c.pipeline_base w =
      ((c.pipe_pivot (c.pipe_filter_rows (c.pipe_melt w ["Type", "Dose"]) "Type")
          ["Type", "date"]).bind fun p => c.pipe_vaccinations p).bind
        (fun v => c.pipe_rename_vaccines v) ∧
    c.pipeline_age w =
      ((c.pipe_pivot (c.pipe_filter_rows (c.pipe_melt w ["Age", "Dose"]) "Age")
          ["Age", "date"]).bind fun p => c.pipe_vaccinations p).map
        (fun v => List.insertionSort (fun a b : AgeRow => strLe a.date b.date)
          (c.pipe_postprocess_age (c.pipe_location_age v))) := by
  refine ⟨?_, rfl, rfl⟩
  rw [Chile.pipe_filter_rows, List.mem_filter]
  cases hrv : r.value with
  | none => simp [hrv]
  | some v => simp [hrv, and_assoc]

/-- Witness for C4: a positive, non-sentinel row survives the filter. -/
theorem chile_c4_witness :
    (⟨"Pfizer", "First", "2021-01-01", some 5⟩ : LongRow) ∈
      chileCfg.pipe_filter_rows [⟨"Pfizer", "First", "2021-01-01", some 5⟩] "Type" :=
  ((chile_c4_filter_rows chileCfg [⟨"Pfizer", "First", "2021-01-01", some 5⟩] "Type"
      wideFix ⟨"Pfizer", "First", "2021-01-01", some 5⟩).1).mpr
    ⟨by decide, by decide, 5, rfl, by decide⟩

/-- Counterexample for C5: on the melted-and-filtered frame of `cexWide`,
whose two categories share the date `"2021-01-01"`, the pivot of the base
pipeline (index `["Type", "date"]`) yields two rows with that date, not
exactly one row per date. -/
theorem chile_c5_cex :
    (chileCfg.pipe_pivot cexLong ["Type", "date"]).map (fun p => p.rows.map fun r => r.date) =
      some ["2021-01-01", "2021-01-01"] ∧
    ¬ (["2021-01-01", "2021-01-01"] : List String).Nodup := by
  exact ⟨by decide, by decide⟩

/-- Reading the cell of column `d` out of a pivot row whose `vals` were
built by mapping a per-dose function over the column list: when `d` is one
of the columns, `cellVal` returns that function's value at `d`. -/
theorem cellVal_of_mem (cat date d : String) (f : String → Option Int) :
    ∀ doses : List String, d ∈ doses →
      cellVal doses ⟨cat, date, doses.map f⟩ d = f d := by
  intro doses
  induction doses with
  | nil => intro h; exact absurd h (List.not_mem_nil d)
  | cons x xs ih =>
    intro hd
    by_cases hx : (x == d) = true
    · have hxd : x = d := by simpa using hx
      simp [cellVal, List.findIdx?_cons, hx, hxd]
    · have hxb : (x == d) = false := by simpa using hx
      have hd2 : d ∈ xs := by
        have hne : x ≠ d := by
          intro he
          rw [he] at hxb
          simp at hxb
        rcases List.mem_cons.mp hd with h | h
        · exact absurd h.symm hne
        · exact h
      have ih2 := ih hd2
      simp only [cellVal, List.findIdx?_cons, hxb, Bool.false_eq_true, if_false,
        List.findIdx?_succ] at ih2 ⊢
      cases hidx : xs.findIdx? (· == d) with
      | none => simp only [hidx] at ih2 ⊢; exact ih2
      | some i =>
        simp only [hidx, Option.map_some, List.get?_cons_succ] at ih2 ⊢
        exact ih2

/-- C5 (amended): a successful `pipe_pivot` yields exactly one row per
distinct `(category, date)` pair of the long frame — the keys of the output
are exactly the keys observed in the input, without duplicates — and one
column per distinct dose, every row carrying one cell per dose column; and
the cells hold the dose values: for every input row, the output row with
its category and date holds, in the column of its dose, exactly its value. -/
theorem chile_c5_pivot (c : Chile) (df : List LongRow) (index : List String) (p : PivotDf)
    (h : c.pipe_pivot df index = some p) :
    (p.rows.map fun r => (r.cat, r.date)).Nodup ∧
    (∀ k : String × String,
      (k ∈ p.rows.map fun r => (r.cat, r.date)) ↔ k ∈ df.map fun r => (r.cat, r.date)) ∧
    p.doses.Nodup ∧
    (∀ d, d ∈ p.doses ↔ d ∈ df.map fun r => r.dose) ∧
    (∀ r ∈ p.rows, r.vals.length = p.doses.length) ∧
    ∀ lr ∈ df, ∀ r ∈ p.rows, r.cat = lr.cat → r.date = lr.date →
      cellVal p.doses r lr.dose = lr.value := by
  rw [Chile.pipe_pivot] at h
  split_ifs at h with hnd
  have hp : p = { doses := List.insertionSort strLe (df.map fun r => r.dose).dedup
                  rows := (List.insertionSort keyLe (df.map fun r => (r.cat, r.date)).dedup).map
                    fun k =>
                    { cat := k.1
                      date := k.2
                      vals := (List.insertionSort strLe (df.map fun r => r.dose).dedup).map fun d =>
                        match df.find? fun r => r.cat == k.1 && r.date == k.2 && r.dose == d with
                        | some r => r.value
                        | none => none } } :=
    (Option.some.injEq _ _ ▸ h).symm
  subst hp
  have hkeys : ((List.insertionSort keyLe (df.map fun r => (r.cat, r.date)).dedup).map
      (fun k : String × String =>
        ({ cat := k.1
           date := k.2
           vals := (List.insertionSort strLe (df.map fun r => r.dose).dedup).map fun d =>
             match df.find? fun r => r.cat == k.1 && r.date == k.2 && r.dose == d with
             | some r => r.value
             | none => none } : PivotRow))).map (fun r => (r.cat, r.date)) =
      List.insertionSort keyLe (df.map fun r => (r.cat, r.date)).dedup := by
    rw [List.map_map]
    exact List.map_id _
  refine ⟨?_, ?_, ?_, ?_, ?_, ?_⟩
  · rw [hkeys]
    exact ((List.perm_insertionSort keyLe _).nodup_iff).mpr (List.nodup_dedup _)
  · intro k
    rw [hkeys, (List.perm_insertionSort keyLe _).mem_iff, List.mem_dedup]
  · exact ((List.perm_insertionSort strLe _).nodup_iff).mpr (List.nodup_dedup _)
  · intro d
    rw [(List.perm_insertionSort strLe _).mem_iff, List.mem_dedup]
  · intro r hr
    obtain ⟨k, hk, rfl⟩ := List.mem_map.mp hr
    exact List.length_map _ _
  · intro lr hlr r hr hcat hdate
    obtain ⟨k, hk, rfl⟩ := List.mem_map.mp hr
    have hcat2 : k.1 = lr.cat := hcat
    have hdate2 : k.2 = lr.date := hdate
    have hdmem : lr.dose ∈ List.insertionSort strLe (df.map fun r => r.dose).dedup := by
      rw [(List.perm_insertionSort strLe _).mem_iff, List.mem_dedup]
      exact List.mem_map_of_mem _ hlr
    rw [cellVal_of_mem k.1 k.2 lr.dose _ _ hdmem]
    cases hfind : df.find? fun row =>
        row.cat == k.1 && row.date == k.2 && row.dose == lr.dose with
    | none =>
      exfalso
      have hnofind := List.find?_eq_none.mp hfind lr hlr
      apply hnofind
      rw [hcat2, hdate2]
      simp
    | some lr2 =>
      have hp2 := List.find?_some hfind
      have hmem2 := List.mem_of_find?_eq_some hfind
      simp only [Bool.and_eq_true, beq_iff_eq] at hp2
      have heq : lr2 = lr := by
        apply List.inj_on_of_nodup_map hnd hmem2 hlr
        simp only [hp2.1.1, hp2.1.2, hp2.2, hcat2, hdate2]
      simp only [hfind]
      rw [heq]

/-- Witness for C5 on the concrete pivot of `cexLong`. -/
theorem chile_c5_witness : (cexPiv.rows.map fun r => (r.cat, r.date)).Nodup :=
  (chile_c5_pivot chileCfg cexLong ["Type", "date"] cexPiv (by decide)).1

/-- C6: `pipe_aggregate_metrics` yields one row per distinct date, whose
three numeric fields are the sums (missing readings counting zero, as
pandas `sum` skips `NaN`) of the corresponding columns over that date's
rows, and whose `vaccine` field joins that date's category labels with
`", "` (in the order the code produces: sorted by label). -/
theorem chile_c6_aggregate (c : Chile) (df : List VaxRow) :
    ((c.pipe_aggregate_metrics df).map fun a => a.date).Nodup ∧
    (∀ d, (d ∈ (c.pipe_aggregate_metrics df).map fun a => a.date) ↔
      d ∈ df.map fun r => r.date) ∧
    ∀ a ∈ c.pipe_aggregate_metrics df,
      a.people_vaccinated =
        ((df.filter fun r => r.date == a.date).map fun r => r.people_vaccinated.getD 0).sum ∧
      a.people_fully_vaccinated =
        ((df.filter fun r => r.date == a.date).map fun r =>
          r.people_fully_vaccinated.getD 0).sum ∧
      a.total_vaccinations =
        ((df.filter fun r => r.date == a.date).map fun r => r.total_vaccinations).sum ∧
      ∃ ls : List String,
        List.Perm ls ((df.filter fun r => r.date == a.date).map fun r => r.cat) ∧
        a.vaccine = String.intercalate ", " ls := by
  rw [Chile.pipe_aggregate_metrics]
  have hdates : ((List.insertionSort strLe (df.map fun r => r.date).dedup).map
      (fun d => ({ date := d
                   people_vaccinated := (((List.insertionSort
                       (fun a b : VaxRow => strLe a.cat b.cat) df).filter
                       fun r => r.date == d).map fun r => r.people_vaccinated.getD 0).sum
                   people_fully_vaccinated := (((List.insertionSort
                       (fun a b : VaxRow => strLe a.cat b.cat) df).filter
                       fun r => r.date == d).map fun r => r.people_fully_vaccinated.getD 0).sum
                   total_vaccinations := (((List.insertionSort
                       (fun a b : VaxRow => strLe a.cat b.cat) df).filter
                       fun r => r.date == d).map fun r => r.total_vaccinations).sum
                   vaccine := String.intercalate ", " (((List.insertionSort
                       (fun a b : VaxRow => strLe a.cat b.cat) df).filter
                       fun r => r.date == d).map fun r => r.cat) } : AggRow))).map
      (fun a => a.date) = List.insertionSort strLe (df.map fun r => r.date).dedup := by
    rw [List.map_map]
    exact List.map_id _
  have hperm : ∀ d : String,
      List.Perm (((List.insertionSort (fun a b : VaxRow => strLe a.cat b.cat) df).filter
        fun r => r.date == d)) (df.filter fun r => r.date == d) :=
    fun d => (List.perm_insertionSort _ df).filter _
  refine ⟨?_, ?_, ?_⟩
  · rw [hdates]
    exact ((List.perm_insertionSort strLe _).nodup_iff).mpr (List.nodup_dedup _)
  · intro d
    rw [hdates, (List.perm_insertionSort strLe _).mem_iff, List.mem_dedup]
  · intro a ha
    obtain ⟨d, hd, rfl⟩ := List.mem_map.mp ha
    refine ⟨((hperm d).map _).sum_eq, ((hperm d).map _).sum_eq, ((hperm d).map _).sum_eq, ?_⟩
    exact ⟨_, (hperm d).map _, rfl⟩

/-- Witness for C6 on a concrete aggregation. -/
theorem chile_c6_witness :
    ((chileCfg.pipe_aggregate_metrics [manVaxRow]).map fun a => a.date).Nodup :=
  (chile_c6_aggregate chileCfg [manVaxRow]).1

/-- Counterexample for C7: with the configured location `"Elbonia"`, the
manufacturer output row still carries location `"Chile"` — the location
column of that emitted table is not the configured location name (and the
`ManRow` schema carries no `source_url` column at all). -/
theorem chile_c7_cex :
    (elboniaCfg.pipeline_manufacturer [manVaxRow]).map (fun r => r.location) = ["Chile"] ∧
    elboniaCfg.location = "Elbonia" ∧ ("Chile" : String) ≠ "Elbonia" := by
  exact ⟨by decide, rfl, by decide⟩

/-- C7 (amended): the main vaccinations output stamps every row with the
configured location and the configured reference URL, and stamping changes
no other column; the age pipeline stamps every row with the configured
location (and no source URL); the manufacturer output instead carries the
literal location `"Chile"` and has no source-URL column. -/
theorem chile_c7_metadata (c : Chile) (adf : List AggRow) (vdf : List VaxRow) :
    (∀ r ∈ c.pipe_location (c.pipe_source adf),
      r.location = c.location ∧ r.source_url = c.source_url_ref) ∧
    ((c.pipe_location (c.pipe_source adf)).map (fun r =>
        AggRow.mk r.date r.people_vaccinated r.people_fully_vaccinated r.total_vaccinations
          r.vaccine) = adf) ∧
    (∀ r ∈ c.pipeline_vaccinations vdf,
      r.location = c.location ∧ r.source_url = c.source_url_ref) ∧
    (∀ r ∈ c.pipe_location_age vdf, r.location = c.location) ∧
    ((c.pipe_location_age vdf).map (fun r =>
        VaxRow.mk r.cat r.date r.people_vaccinated r.people_fully_vaccinated
          r.total_vaccinations r.others) = vdf) ∧
    (∀ r ∈ c.pipeline_manufacturer vdf, r.location = "Chile") := by
  refine ⟨?_, ?_, ?_, ?_, ?_, ?_⟩
  · intro r hr
    simp only [Chile.pipe_location, Chile.pipe_source, List.map_map, List.mem_map] at hr
    obtain ⟨x, hx, rfl⟩ := hr
    exact ⟨rfl, rfl⟩
  · simp only [Chile.pipe_location, Chile.pipe_source, List.map_map]
    exact List.map_id _
  · intro r hr
    simp only [Chile.pipeline_vaccinations, Chile.pipe_location, Chile.pipe_source,
      List.map_map, List.mem_map] at hr
    obtain ⟨x, hx, rfl⟩ := hr
    exact ⟨rfl, rfl⟩
  · intro r hr
    simp only [Chile.pipe_location_age, List.mem_map] at hr
    obtain ⟨x, hx, rfl⟩ := hr
    rfl
  · simp only [Chile.pipe_location_age, List.map_map]
    exact List.map_id _
  · intro r hr
    rw [Chile.pipeline_manufacturer, (List.perm_insertionSort _ _).mem_iff] at hr
    obtain ⟨x, hx, rfl⟩ := List.mem_map.mp hr
    rfl

/-- Witness for C7 on a concrete stamping run. -/
theorem chile_c7_witness :
    ((chileCfg.pipe_location (chileCfg.pipe_source [aggRowFix])).map (fun r =>
        AggRow.mk r.date r.people_vaccinated r.people_fully_vaccinated r.total_vaccinations
          r.vaccine) = [aggRowFix]) :=
  (chile_c7_metadata chileCfg [aggRowFix] []).2.1

/-- C8: the transform chain is deterministic — equal inputs and equal
configurations produce equal outputs, row order included, for the
vaccinations, manufacturer and age runs alike. -/
theorem chile_c8_deterministic (c1 c2 : Chile) (w1 w2 wa1 wa2 : WideDf)
    (hc : c1 = c2) (hw : w1 = w2) (hwa : wa1 = wa2) :
    c1.run_vaccinations w1 = c2.run_vaccinations w2 ∧
    c1.run_manufacturer w1 = c2.run_manufacturer w2 ∧
    c1.pipeline_age wa1 = c2.pipeline_age wa2 := by
  subst hc
  subst hw
  subst hwa
  exact ⟨rfl, rfl, rfl⟩

/-- Witness for C8 on the concrete fixtures. -/
theorem chile_c8_witness :
    chileCfg.run_vaccinations wideFix = chileCfg.run_vaccinations wideFix ∧
    chileCfg.run_manufacturer wideFix = chileCfg.run_manufacturer wideFix ∧
    chileCfg.pipeline_age cexWide = chileCfg.pipeline_age cexWide :=
  chile_c8_deterministic chileCfg chileCfg wideFix wideFix cexWide cexWide rfl rfl rfl

/-- C10: the manufacturer output does not depend on the constructor
configuration at all (so its location column is the literal `"Chile"`
whatever location was configured), every row carries location `"Chile"`,
and the rows are sorted ascending by date; its row type `ManRow` has no
`source_url` field. -/
theorem chile_c10_manufacturer (c1 c2 : Chile) (df : List VaxRow) :
    c1.pipeline_manufacturer df = c2.pipeline_manufacturer df ∧
    (∀ r ∈ c1.pipeline_manufacturer df, r.location = "Chile") ∧
    List.Sorted (fun a b : ManRow => strLe a.date b.date) (c1.pipeline_manufacturer df) := by
  refine ⟨rfl, ?_, ?_⟩
  · intro r hr
    rw [Chile.pipeline_manufacturer, (List.perm_insertionSort _ _).mem_iff] at hr
    obtain ⟨x, hx, rfl⟩ := List.mem_map.mp hr
    rfl
  · rw [Chile.pipeline_manufacturer]
    exact List.sorted_insertionSort _ _

/-- Witness for C10: the manufacturer run ignores the configured location. -/
theorem chile_c10_witness :
    chileCfg.pipeline_manufacturer [manVaxRow] = elboniaCfg.pipeline_manufacturer [manVaxRow] :=
  (chile_c10_manufacturer chileCfg elboniaCfg [manVaxRow]).1

theorem isDigitChar_not_letterSpace (ch : Char) (h : isDigitChar ch = true) :
    isAgeLetterSpace ch = false := by
  simp only [isDigitChar, decide_eq_true_eq] at h
  simp only [isAgeLetterSpace, decide_eq_false_iff_not]
  omega

theorem isDigitChar_ne_dash (ch : Char) (h : isDigitChar ch = true) : (ch == '-') = false := by
  rw [beq_eq_false_iff_ne]
  intro he
  rw [he] at h
  exact absurd h (by decide)

theorem ageMatchAt_not_digit (c : Char) (cs : List Char) (h : isDigitChar c = false) :
    ageMatchAt (c :: cs) = none := by
  simp [ageMatchAt, h]

theorem ageSearch_no_digit : ∀ l : List Char, (∀ ch ∈ l, isDigitChar ch = false) →
    ageSearch l = none := by
  intro l
  induction l with
  | nil => intro _; rfl
  | cons c cs ih =>
    intro h
    simp [ageSearch, ageMatchAt_not_digit c cs (h c (List.mem_cons_self c cs)),
      ih fun ch hch => h ch (List.mem_cons_of_mem c hch)]

/-- Shape of a one- or two-digit numeral, as the regex group `(\d{1,2})`
captures it. -/
def digitShape (n : List Char) : Prop :=
  (∃ a, n = [a] ∧ isDigitChar a = true) ∨
    (∃ a b, n = [a, b] ∧ isDigitChar a = true ∧ isDigitChar b = true)

theorem digits_shape (n : List Char) (hl : n.length = 1 ∨ n.length = 2)
    (hd : ∀ ch ∈ n, isDigitChar ch = true) : digitShape n := by
  match n with
  | [a] => exact Or.inl ⟨a, rfl, hd a (by simp)⟩
  | [a, b] => exact Or.inr ⟨a, b, rfl, hd a (by simp), hd b (by simp)⟩
  | [] => simp at hl
  | a :: b :: e :: t => simp [List.length_cons] at hl

theorem ageSearch_bounded (n1 n2 : List Char) (h1 : digitShape n1) (h2 : digitShape n2) :
    ageSearch (n1 ++ '-' :: (n2 ++ " years".data)) = some (n1, some n2) := by
  have hdD : isDigitChar '-' = false := by decide
  have hdL : isAgeLetterSpace '-' = false := by decide
  have hsD : isDigitChar ' ' = false := by decide
  have hsL : isAgeLetterSpace ' ' = true := by decide
  rcases h1 with ⟨a, rfl, ha⟩ | ⟨a, b, rfl, ha, hb⟩ <;>
    rcases h2 with ⟨x, rfl, hx⟩ | ⟨x, y, rfl, hx, hy⟩ <;>
    simp [ageSearch, ageMatchAt, ageSuffixMatch, ha, hdD, hdL, hsD, hsL, *]

theorem ageSearch_open (n1 : List Char) (h1 : digitShape n1) :
    ageSearch (n1 ++ " or more".data) = some (n1, none) := by
  have hsD : isDigitChar ' ' = false := by decide
  have hsL : isAgeLetterSpace ' ' = true := by decide
  rcases h1 with ⟨a, rfl, ha⟩ | ⟨a, b, rfl, ha, hb⟩ <;>
    simp [ageSearch, ageMatchAt, ageSuffixMatch, ha, hsD, hsL, *]

theorem ageSuffixMatch_bad (g1 : List Char) (ch : Char) (cs : List Char)
    (hL : isAgeLetterSpace ch = false) (hB : (ch == '-') = false) :
    ageSuffixMatch g1 (ch :: cs) = none := by
  simp [ageSuffixMatch, hL, hB]

theorem ageSearch_cons_none (c : Char) (cs : List Char) (h : ageMatchAt (c :: cs) = none) :
    ageSearch (c :: cs) = ageSearch cs := by
  simp [ageSearch, h]

theorem ageMatchAt_digit_bad (a c2 : Char) (rest : List Char)
    (ha : isDigitChar a = true) (hD : isDigitChar c2 = false)
    (hL : isAgeLetterSpace c2 = false) (hB : (c2 == '-') = false) :
    ageMatchAt (a :: c2 :: rest) = none := by
  simp [ageMatchAt, ha, hD, ageSuffixMatch_bad [a] c2 rest hL hB]

theorem ageMatchAt_two_digit_bad (a b c2 : Char) (rest : List Char)
    (ha : isDigitChar a = true) (hb : isDigitChar b = true)
    (hbL : isAgeLetterSpace b = false) (hbB : (b == '-') = false)
    (hL : isAgeLetterSpace c2 = false) (hB : (c2 == '-') = false) :
    ageMatchAt (a :: b :: c2 :: rest) = none := by
  simp [ageMatchAt, ha, hb, ageSuffixMatch_bad [a, b] c2 rest hL hB,
    ageSuffixMatch_bad [a] b (c2 :: rest) hbL hbB]

theorem ageSearch_plus (n1 : List Char) (h1 : digitShape n1) :
    ageSearch (n1 ++ '+' :: " years".data) = none := by
  have hrest : ageSearch ('+' :: " years".data) = none :=
    ageSearch_no_digit _ (by decide)
  rcases h1 with ⟨a, rfl, ha⟩ | ⟨a, b, rfl, ha, hb⟩
  · show ageSearch (a :: '+' :: " years".data) = none
    rw [ageSearch_cons_none _ _
      (ageMatchAt_digit_bad a '+' _ ha (by decide) (by decide) (by decide))]
    exact hrest
  · have hbL := isDigitChar_not_letterSpace b hb
    have hbB := isDigitChar_ne_dash b hb
    show ageSearch (a :: b :: '+' :: " years".data) = none
    rw [ageSearch_cons_none _ _
      (ageMatchAt_two_digit_bad a b '+' _ ha hb hbL hbB (by decide) (by decide))]
    rw [ageSearch_cons_none _ _
      (ageMatchAt_digit_bad b '+' _ hb (by decide) (by decide) (by decide))]
    exact hrest

/-- Counterexample for C2: the label `"80+ years"` — the claim's
`"N+ years"` form — does not match the age regex at all; both extracted
bounds come back empty, not `age_group_min = "80"`. -/
theorem chile_c2_cex :
    extractAge "80+ years" = (none, none) ∧
    (extractAge "80+ years").1 ≠ some "80" ∧
    (chileCfg.pipe_postprocess_age [agePlusRow]).map (fun a => a.age_group_min) = [none] := by
  exact ⟨by decide, by decide, by decide⟩

/-- C2 (amended): the age extraction of `pipe_postprocess_age` parses
bounded labels "N-M years" into both bounds and open-ended "N or more"
labels into a minimum with an empty maximum, and never errors; but the
"N+ years" form does not match (the `+` fits neither regex branch), so such
labels yield two empty bounds rather than a parsed minimum. -/
theorem chile_c2_age_extraction (c : Chile) (r : LocVaxRow) (n1 n2 : List Char)
    (h1 : (n1.length = 1 ∨ n1.length = 2) ∧ ∀ ch ∈ n1, isDigitChar ch = true)
    (h2 : (n2.length = 1 ∨ n2.length = 2) ∧ ∀ ch ∈ n2, isDigitChar ch = true) :
    extractAge (String.mk (n1 ++ '-' :: (n2 ++ " years".data))) =
      (some (String.mk n1), some (String.mk n2)) ∧
    extractAge (String.mk (n1 ++ " or more".data)) = (some (String.mk n1), none) ∧
    extractAge (String.mk (n1 ++ '+' :: " years".data)) = (none, none) ∧
    (c.pipe_postprocess_age [r]).map (fun a => (a.age_group_min, a.age_group_max)) =
      [extractAge r.cat] := by
  have s1 := digits_shape n1 h1.1 h1.2
  have s2 := digits_shape n2 h2.1 h2.2
  refine ⟨?_, ?_, ?_, ?_⟩
  · have h := ageSearch_bounded n1 n2 s1 s2
    simp only [extractAge]
    rw [h]
    rfl
  · have h := ageSearch_open n1 s1
    simp only [extractAge]
    rw [h]
    rfl
  · have h := ageSearch_plus n1 s1
    simp only [extractAge]
    rw [h]
  · rfl

/-- Witness for C2 at the concrete bounded label `"20-29 years"`. -/
theorem chile_c2_witness :
    extractAge (String.mk (['2', '0'] ++ '-' :: (['2', '9'] ++ " years".data))) =
      (some (String.mk ['2', '0']), some (String.mk ['2', '9'])) :=
  (chile_c2_age_extraction chileCfg agePlusRow ['2', '0'] ['2', '9']
    ⟨Or.inr rfl, by decide⟩ ⟨Or.inr rfl, by decide⟩).1
